import Mathlib

/-!
Shallow embedding of `src/board.c` (split-keyboard central half):
the BLE power-mode state machine (`power_mode_transition` and its
callbacks) and the JIS-to-US keycode remap engine
(`proc_regist_keycode`, `us_printed_on_jis_keycode_listener`).

Host-framework services are modelled as oracle inputs: `k_uptime_get`
becomes a `now : Int` argument, `zmk_usb_is_powered` a `usb : Bool`
argument, and the result of `bt_conn_le_param_update` an
`updOk : Bool` argument.  `ZMK_EVENT_RAISE` is the external event
re-emission sink of the spec's interface section, so raised events are
collected into an output list.  The delayed work item
`power_mode_work` is modelled as an `Option Int` field holding the
delay of the pending evaluation, `none` when nothing is scheduled.
-/

namespace Board

/-! ### Constants from `board.c` lines 24-35 -/

def SLEEP1_TIMEOUT_MS : Int := 5000
def SLEEP2_TIMEOUT_MS : Int := 15000
def SLEEP3_TIMEOUT_MS : Int := 30000

/-- Build-time configuration values `CONFIG_ZMK_SPLIT_BLE_PREF_*`;
the source only fixes how profiles are derived from them. -/
structure Config where
  prefInt : Nat
  prefLatency : Nat
  prefTimeout : Nat
deriving DecidableEq, Repr

def ACTIVE_CONN_INTERVAL (c : Config) : Nat := c.prefInt
def SLEEP1_CONN_INTERVAL (c : Config) : Nat := c.prefInt * 2
def SLEEP2_CONN_INTERVAL (c : Config) : Nat := c.prefInt * 4
def SLEEP3_CONN_INTERVAL (c : Config) : Nat := c.prefInt * 8
def CONN_LATENCY (c : Config) : Nat := c.prefLatency
def SLEEP1_CONN_LATENCY (c : Config) : Nat := (c.prefLatency + 1) / 2
def SLEEP2_CONN_LATENCY (c : Config) : Nat := (c.prefLatency + 3) / 4
def SLEEP3_CONN_LATENCY (c : Config) : Nat := (c.prefLatency + 7) / 8
def SUPERVISION_TIMEOUT (c : Config) : Nat := c.prefTimeout

/-! ### Power-mode state machine -/

/-- The `enum power_mode` of `board.c` lines 37-42. -/
inductive PowerMode
  | active
  | sleep1
  | sleep2
  | sleep3
deriving DecidableEq, Repr

/-- The `struct bt_le_conn_param` fields set by `board.c`. -/
structure ConnParam where
  interval_min : Nat
  interval_max : Nat
  latency : Nat
  timeout : Nat
deriving DecidableEq, Repr

/-- The module-level mutable state of `board.c` lines 44-47:
`current_mode`, `last_activity_time`, whether `split_conn` is
non-NULL, and the pending delay of `power_mode_work` (if scheduled). -/
structure PowerState where
  current_mode : PowerMode
  last_activity_time : Int
  split_conn : Bool
  pending : Option Int
deriving DecidableEq, Repr

/-- Connection-parameter tuple per mode, from the `switch (target_mode)`
at `board.c` lines 121-144 (and the USB branch, lines 60-65):
`interval_min = interval_max` per mode, latency per mode, and
`param.timeout = SUPERVISION_TIMEOUT` in every case. -/
def profileFor (c : Config) : PowerMode → ConnParam
  | .active => ⟨ACTIVE_CONN_INTERVAL c, ACTIVE_CONN_INTERVAL c, CONN_LATENCY c, SUPERVISION_TIMEOUT c⟩
  | .sleep1 => ⟨SLEEP1_CONN_INTERVAL c, SLEEP1_CONN_INTERVAL c, SLEEP1_CONN_LATENCY c, SUPERVISION_TIMEOUT c⟩
  | .sleep2 => ⟨SLEEP2_CONN_INTERVAL c, SLEEP2_CONN_INTERVAL c, SLEEP2_CONN_LATENCY c, SUPERVISION_TIMEOUT c⟩
  | .sleep3 => ⟨SLEEP3_CONN_INTERVAL c, SLEEP3_CONN_INTERVAL c, SLEEP3_CONN_LATENCY c, SUPERVISION_TIMEOUT c⟩

/-- Target mode from idle time, `board.c` lines 83-91. -/
def target_mode (idle : Int) : PowerMode :=
  if idle ≥ SLEEP3_TIMEOUT_MS then .sleep3
  else if idle ≥ SLEEP2_TIMEOUT_MS then .sleep2
  else if idle ≥ SLEEP1_TIMEOUT_MS then .sleep1
  else .active

/-- The `switch (current_mode)` computing `next_timeout`
(`board.c` lines 97-109 and the identical copy at lines 155-167);
`none` models the `default: return` (no transition out of SLEEP3). -/
def next_timeout_for (m : PowerMode) (idle : Int) : Option Int :=
  match m with
  | .active => some (SLEEP1_TIMEOUT_MS - idle)
  | .sleep1 => some (SLEEP2_TIMEOUT_MS - idle)
  | .sleep2 => some (SLEEP3_TIMEOUT_MS - idle)
  | .sleep3 => none

/-- Reschedule helper: `if (next_timeout > 0) k_work_schedule(...)`,
`board.c` lines 111-113 / 169-171. -/
def reschedule (s : PowerState) (t : Option Int) : PowerState :=
  match t with
  | none => s
  | some d => if d > 0 then { s with pending := some d } else s

/-- The work handler `power_mode_transition`, `board.c` lines 50-175.
Returns the updated state together with the list of
`bt_conn_le_param_update` requests issued (at most one per run).
The error path of a failed update only logs a warning: no mode change,
no reschedule, and nothing is returned to the caller (the handler's C
return type is `void`, so failure is never propagated). -/
def power_mode_transition (c : Config) (usb : Bool) (now : Int) (updOk : Bool)
    (s : PowerState) : PowerState × List ConnParam :=
  if !s.split_conn then (s, [])
  else if usb then
    if s.current_mode ≠ PowerMode.active then
      let param := profileFor c .active
      if updOk then
        ({ s with current_mode := .active, pending := some 5000 }, [param])
      else
        ({ s with pending := some 5000 }, [param])
    else
      ({ s with pending := some 5000 }, [])
  else
    let idle := now - s.last_activity_time
    let target := target_mode idle
    if target = s.current_mode then
      (reschedule s (next_timeout_for s.current_mode idle), [])
    else
      let param := profileFor c target
      if updOk then
        let s1 := { s with current_mode := target }
        (reschedule s1 (next_timeout_for target idle), [param])
      else
        (s, [param])

/-- `reset_idle_timer`, `board.c` lines 178-190: record activity time,
cancel the delayable work, then either run the transition synchronously
(mode not Active) or schedule an evaluation after `SLEEP1_TIMEOUT_MS`. -/
def reset_idle_timer (c : Config) (usb : Bool) (now : Int) (updOk : Bool)
    (s : PowerState) : PowerState × List ConnParam :=
  let s1 : PowerState := { s with last_activity_time := now, pending := none }
  if s1.current_mode ≠ PowerMode.active then
    power_mode_transition c usb now updOk s1
  else
    ({ s1 with pending := some SLEEP1_TIMEOUT_MS }, [])

/-- Zephyr `k_work_schedule` semantics: schedules the delayable work
only when it is not already scheduled; with a pending item it is a
no-op that keeps the old deadline (rescheduling would need
`k_work_reschedule` or a prior cancel).  The other scheduling sites of
`board.c` run with the work item idle — `reset_idle_timer` cancels at
line 181 first, and inside `power_mode_transition` the work item's own
handler is executing, hence dequeued — so their direct `pending`
writes coincide with this semantics; the connected callback at line
222 is the one call site that may run with an evaluation pending. -/
def k_work_schedule (s : PowerState) (d : Int) : PowerState :=
  match s.pending with
  | none => { s with pending := some d }
  | some _ => s

/-- `power_mgmt_bt_conn_connected_cb`, `board.c` lines 210-223.
`errU` is the callback's `err` argument, `qualifies` the result of
`is_split_peripheral_conn`.  Note the source stores the handle, resets
`last_activity_time` and calls `k_work_schedule` without cancelling
first (so an already-pending evaluation keeps its old deadline), and
never assigns `current_mode`. -/
def power_mgmt_bt_conn_connected_cb (errU qualifies : Bool) (now : Int)
    (s : PowerState) : PowerState :=
  if errU || !qualifies then s
  else k_work_schedule
    { s with split_conn := true, last_activity_time := now } SLEEP1_TIMEOUT_MS

/-- `power_mgmt_bt_conn_disconnected_cb`, `board.c` lines 225-236.
`sameConn` models `conn == split_conn`; a NULL `split_conn` cannot
equal the callback's connection, hence the conjunction in the guard. -/
def power_mgmt_bt_conn_disconnected_cb (sameConn : Bool)
    (s : PowerState) : PowerState :=
  if !(s.split_conn && sameConn) then s
  else { s with pending := none, split_conn := false,
                current_mode := PowerMode.active }

/-- External stimuli of the module: connection callbacks, activity
(key position change or trackball input, both via `reset_idle_timer`),
and the firing of the scheduled `power_mode_work`. -/
inductive PMEvent
  | connect (errU qualifies : Bool) (now : Int)
  | disconnect (sameConn : Bool)
  | activity (usb updOk : Bool) (now : Int)
  | evalFire (usb updOk : Bool) (now : Int)
deriving DecidableEq, Repr

/-- Dispatch one stimulus; a firing work item is no longer pending when
its handler runs. -/
def pm_step (c : Config) (s : PowerState) : PMEvent → PowerState × List ConnParam
  | .connect errU qualifies now => (power_mgmt_bt_conn_connected_cb errU qualifies now s, [])
  | .disconnect sameConn => (power_mgmt_bt_conn_disconnected_cb sameConn s, [])
  | .activity usb updOk now => reset_idle_timer c usb now updOk s
  | .evalFire usb updOk now =>
      power_mode_transition c usb now updOk { s with pending := none }

/-- Run a sequence of stimuli, collecting every parameter-update
request issued along the way. -/
def pm_run (c : Config) (s : PowerState) : List PMEvent → PowerState × List ConnParam
  | [] => (s, [])
  | e :: es =>
      let r1 := pm_step c s e
      let r2 := pm_run c r1.1 es
      (r2.1, r1.2 ++ r2.2)

/-- State at `SYS_INIT`: static initializers of `board.c` lines 45-47
(`current_mode = POWER_MODE_ACTIVE`, `last_activity_time = 0`,
`split_conn = NULL`), nothing scheduled. -/
def pm_init : PowerState :=
  { current_mode := .active, last_activity_time := 0,
    split_conn := false, pending := none }

/-- A stimulus that acquires a link: successful `connected` callback on
a qualifying (central-role, LE) connection. -/
def is_qual_connect : PMEvent → Bool
  | .connect errU qualifies _ => !errU && qualifies
  | _ => false

/-- No-link-implies-Active invariant of the controller state. -/
def pm_inv (s : PowerState) : Prop :=
  s.split_conn = false → s.current_mode = PowerMode.active

/-! ### Keycode remap engine

Keycode constants from `zmk/keys.h`.  Claims about the remap engine
depend only on these values being pairwise distinct; plain HID usage
IDs are used for the unmodified keys, and the shifted-symbol aliases
(which ZMK encodes with implicit-modifier bits above the usage ID) are
given distinct values above `0x100`. -/

def N0 : Nat := 0x27
def N2 : Nat := 0x1F
def N6 : Nat := 0x23
def N7 : Nat := 0x24
def N8 : Nat := 0x25
def N9 : Nat := 0x26
def MINUS : Nat := 0x2D
def EQUAL : Nat := 0x2E
def LBKT : Nat := 0x2F
def RBKT : Nat := 0x30
def BSLH : Nat := 0x31
def NON_US_HASH : Nat := 0x32
def SEMICOLON : Nat := 0x33
def QUOTE : Nat := 0x34
def GRAVE : Nat := 0x35
def COMMA : Nat := 0x36
def CAPSLOCK : Nat := 0x39
def INT1 : Nat := 0x87
def INT3 : Nat := 0x89
def LEFT_SHIFT : Nat := 0xE1
def RIGHT_SHIFT : Nat := 0xE5
def LBRC : Nat := 0x100 + 0x2F
def RBRC : Nat := 0x100 + 0x30
def TILD : Nat := 0x100 + 0x35
def AT : Nat := 0x100 + 0x1F
def CARET : Nat := 0x100 + 0x23
def AMPERSAND : Nat := 0x100 + 0x24
def ASTERISK : Nat := 0x100 + 0x25
def LPAR : Nat := 0x100 + 0x26
def RPAR : Nat := 0x100 + 0x27
def UNDER : Nat := 0x100 + 0x2D
def PLUS : Nat := 0x100 + 0x2E
def PIPE : Nat := 0x100 + 0x31
def COLON : Nat := 0x100 + 0x33
def DQUOTE : Nat := 0x100 + 0x34
def PEQL : Nat := 0x100 + 0x67

/-- The fields of `struct zmk_keycode_state_changed` the module reads
and writes: the keycode and the press (`state != 0`) flag. -/
structure KeyEvent where
  keycode : Nat
  state : Bool
deriving DecidableEq, Repr

/-- The physical shift flags `gs_lshift` / `gs_rshift`,
`board.c` lines 269-270. -/
structure ShiftState where
  gs_lshift : Bool
  gs_rshift : Bool
deriving DecidableEq, Repr

/-- Listener verdicts `ZMK_EV_EVENT_BUBBLE` / `ZMK_EV_EVENT_HANDLED`. -/
inductive ListenerResult
  | bubble
  | handled
deriving DecidableEq, Repr

/-- `proc_regist_keycode`, `board.c` lines 280-359.  It reads the shift
flags but never assigns them; every `ZMK_EVENT_RAISE(new_ev)` is an
emission into the external event sink, collected here in program
order. -/
def proc_regist_keycode (st : ShiftState) (ev : KeyEvent)
    (regist_ifshift : Nat) (is_shift_ifshift : Bool)
    (regist : Nat) (is_shift : Bool) : List KeyEvent :=
  let shift_now := st.gs_lshift || st.gs_rshift
  if ev.state then
    if shift_now then
      (if !is_shift_ifshift then
        (if st.gs_lshift then [⟨LEFT_SHIFT, false⟩] else []) ++
        (if st.gs_rshift then [⟨RIGHT_SHIFT, false⟩] else [])
      else []) ++ [⟨regist_ifshift, true⟩]
    else
      (if is_shift then [⟨LEFT_SHIFT, true⟩] else []) ++ [⟨regist, true⟩]
  else
    (if shift_now && !is_shift_ifshift then
      (if st.gs_lshift then [⟨LEFT_SHIFT, false⟩] else []) ++
      (if st.gs_rshift then [⟨RIGHT_SHIFT, false⟩] else [])
    else []) ++
    [⟨regist_ifshift, false⟩] ++
    (if shift_now && !is_shift_ifshift then
      (if st.gs_lshift then [⟨LEFT_SHIFT, true⟩] else []) ++
      (if st.gs_rshift then [⟨RIGHT_SHIFT, true⟩] else [])
    else []) ++
    (if !shift_now && is_shift then [⟨LEFT_SHIFT, true⟩] else []) ++
    [⟨regist, false⟩] ++
    (if !shift_now && is_shift then [⟨LEFT_SHIFT, false⟩] else [])

/-- One arm of the JIS-to-US translation table: the arguments passed to
`proc_regist_keycode` for a given `case` label of the `switch` at
`board.c` lines 387-478. -/
structure RemapEntry where
  source : Nat
  regist_ifshift : Nat
  is_shift_ifshift : Bool
  regist : Nat
  is_shift : Bool
deriving DecidableEq, Repr

/-- The `switch` of `board.c` lines 387-478 as a first-match table in
source order (all case labels are distinct, so first-match equals the
C switch dispatch). -/
def remap_table : List RemapEntry :=
  [⟨N2, LBRC, false, N2, false⟩,
   ⟨N6, EQUAL, false, N6, false⟩,
   ⟨N7, N6, true, N7, false⟩,
   ⟨N8, QUOTE, true, N8, false⟩,
   ⟨N9, N8, true, N9, false⟩,
   ⟨N0, N9, true, N0, false⟩,
   ⟨MINUS, INT1, true, MINUS, false⟩,
   ⟨EQUAL, SEMICOLON, true, MINUS, true⟩,
   ⟨LBRC, RBRC, true, RBRC, false⟩,
   ⟨RBRC, NON_US_HASH, true, NON_US_HASH, false⟩,
   ⟨BSLH, INT3, true, INT1, false⟩,
   ⟨SEMICOLON, QUOTE, false, SEMICOLON, false⟩,
   ⟨QUOTE, N2, true, N7, true⟩,
   ⟨GRAVE, EQUAL, true, LBRC, true⟩,
   ⟨TILD, EQUAL, true, EQUAL, true⟩,
   ⟨AT, LBRC, false, LBRC, false⟩,
   ⟨CARET, EQUAL, false, EQUAL, false⟩,
   ⟨AMPERSAND, N6, true, N6, true⟩,
   ⟨ASTERISK, QUOTE, true, QUOTE, true⟩,
   ⟨LPAR, N8, true, N8, true⟩,
   ⟨RPAR, N9, true, N9, true⟩,
   ⟨UNDER, INT1, true, INT1, true⟩,
   ⟨PLUS, SEMICOLON, true, SEMICOLON, true⟩,
   ⟨LBKT, RBRC, true, RBRC, true⟩,
   ⟨RBKT, NON_US_HASH, true, NON_US_HASH, true⟩,
   ⟨PIPE, INT3, true, INT3, true⟩,
   ⟨COLON, QUOTE, false, QUOTE, false⟩,
   ⟨DQUOTE, N2, true, N2, true⟩,
   ⟨PEQL, MINUS, true, MINUS, true⟩,
   ⟨COMMA, COMMA, false, COMMA, false⟩]

/-- `us_printed_on_jis_keycode_listener`, `board.c` lines 362-481:
physical Left/Right Shift updates the tracker and bubbles; CapsLock is
re-emitted as `INT1` preserving press state; otherwise the table
dispatches to `proc_regist_keycode`, and unmatched keycodes bubble.
Result: updated tracker, listener verdict, emitted events. -/
def us_printed_on_jis_keycode_listener (st : ShiftState) (ev : KeyEvent) :
    ShiftState × ListenerResult × List KeyEvent :=
  if ev.keycode = LEFT_SHIFT then
    ({ st with gs_lshift := ev.state }, .bubble, [])
  else if ev.keycode = RIGHT_SHIFT then
    ({ st with gs_rshift := ev.state }, .bubble, [])
  else if ev.keycode = CAPSLOCK then
    (st, .handled, [⟨INT1, ev.state⟩])
  else
    match remap_table.find? (fun e => e.source == ev.keycode) with
    | some e => (st, .handled,
        proc_regist_keycode st ev e.regist_ifshift e.is_shift_ifshift e.regist e.is_shift)
    | none => (st, .bubble, [])

/-- Emission sequence of release handling as the amended C5 claim words
it (a spec-side description, to be compared with the code's
`proc_regist_keycode`): when shift is active and the shift-variant
target does not require shift, first releases of the held physical
shift side(s); then the release of the shift-variant target; then
re-presses of exactly the held side(s); then, when shift is inactive
and the plain-variant target requires shift, a press of logical Left
Shift; then the release of the plain-variant target; and finally, in
that last case, a release of logical Left Shift. -/
def release_seq_claim (e : RemapEntry) (l r : Bool) : List KeyEvent :=
  let shiftActive := l || r
  let override := shiftActive && !e.is_shift_ifshift
  (if override then
    (if l then [⟨LEFT_SHIFT, false⟩] else []) ++
    (if r then [⟨RIGHT_SHIFT, false⟩] else [])
  else []) ++
  [⟨e.regist_ifshift, false⟩] ++
  (if override then
    (if l then [⟨LEFT_SHIFT, true⟩] else []) ++
    (if r then [⟨RIGHT_SHIFT, true⟩] else [])
  else []) ++
  (if !shiftActive && e.is_shift then [⟨LEFT_SHIFT, true⟩] else []) ++
  [⟨e.regist, false⟩] ++
  (if !shiftActive && e.is_shift then [⟨LEFT_SHIFT, false⟩] else [])

/-! ### Helper lemmas -/

theorem reschedule_split_conn (s : PowerState) (t : Option Int) :
    (reschedule s t).split_conn = s.split_conn := by
  cases t with
  | none => rfl
  | some d => by_cases h : d > 0 <;> simp [reschedule, h]

theorem reschedule_current_mode (s : PowerState) (t : Option Int) :
    (reschedule s t).current_mode = s.current_mode := by
  cases t with
  | none => rfl
  | some d => by_cases h : d > 0 <;> simp [reschedule, h]

theorem k_work_schedule_split_conn (s : PowerState) (d : Int) :
    (k_work_schedule s d).split_conn = s.split_conn := by
  unfold k_work_schedule
  cases s.pending <;> rfl

theorem transition_split_conn (c : Config) (usb : Bool) (now : Int) (updOk : Bool)
    (s : PowerState) :
    (power_mode_transition c usb now updOk s).1.split_conn = s.split_conn := by
  unfold power_mode_transition
  repeat' split
  all_goals by_cases ht : target_mode (now - s.last_activity_time) = s.current_mode <;>
    simp [ht, reschedule_split_conn]

theorem transition_no_conn (c : Config) (usb : Bool) (now : Int) (updOk : Bool)
    (s : PowerState) (h : s.split_conn = false) :
    power_mode_transition c usb now updOk s = (s, []) := by
  simp [power_mode_transition, h]

theorem pm_step_preserves_inv (c : Config) (s : PowerState) (e : PMEvent)
    (h : pm_inv s) : pm_inv (pm_step c s e).1 := by
  cases e with
  | connect errU q now =>
      dsimp [pm_step, power_mgmt_bt_conn_connected_cb]
      split_ifs with hg
      · exact h
      · intro hsc
        rw [k_work_schedule_split_conn] at hsc
        simp at hsc
  | disconnect same =>
      dsimp [pm_step, power_mgmt_bt_conn_disconnected_cb]
      split_ifs with hg
      · exact h
      · intro _; rfl
  | activity usb upd now =>
      dsimp [pm_step, reset_idle_timer]
      split_ifs with hm
      · intro _; exact hm
      · intro hsc
        rw [transition_split_conn] at hsc
        exact absurd (h hsc) hm
  | evalFire usb upd now =>
      dsimp [pm_step]
      intro hsc
      rw [transition_split_conn] at hsc
      have hz : PowerState.split_conn
          { current_mode := s.current_mode, last_activity_time := s.last_activity_time,
            split_conn := s.split_conn, pending := none } = false := hsc
      rw [transition_no_conn c usb now upd _ hz]
      exact h hsc

theorem pm_run_preserves_inv (c : Config) (evs : List PMEvent) :
    ∀ s : PowerState, pm_inv s → pm_inv (pm_run c s evs).1 := by
  induction evs with
  | nil => exact fun s h => h
  | cons e es ih => exact fun s h => ih _ (pm_step_preserves_inv c s e h)

theorem pm_step_no_link (c : Config) (s : PowerState) (e : PMEvent)
    (hs : s.split_conn = false) (he : is_qual_connect e = false) :
    (pm_step c s e).2 = [] ∧ (pm_step c s e).1.split_conn = false := by
  cases e with
  | connect errU q now =>
      dsimp [is_qual_connect] at he
      dsimp [pm_step, power_mgmt_bt_conn_connected_cb]
      cases errU <;> cases q <;> simp_all
  | disconnect same =>
      dsimp [pm_step, power_mgmt_bt_conn_disconnected_cb]
      rw [if_pos (by simp [hs])]
      exact ⟨rfl, hs⟩
  | activity usb upd now =>
      dsimp [pm_step, reset_idle_timer]
      split_ifs with hm
      · exact ⟨rfl, hs⟩
      · rw [transition_no_conn c usb now upd _ (show PowerState.split_conn
            { current_mode := s.current_mode, last_activity_time := now,
              split_conn := s.split_conn, pending := none } = false from hs)]
        exact ⟨rfl, hs⟩
  | evalFire usb upd now =>
      dsimp [pm_step]
      rw [transition_no_conn c usb now upd _ (show PowerState.split_conn
          { current_mode := s.current_mode, last_activity_time := s.last_activity_time,
            split_conn := s.split_conn, pending := none } = false from hs)]
      exact ⟨rfl, hs⟩

theorem pm_run_no_link (c : Config) (evs : List PMEvent) :
    ∀ s : PowerState, s.split_conn = false →
      (∀ e ∈ evs, is_qual_connect e = false) → (pm_run c s evs).2 = [] := by
  induction evs with
  | nil => intro s _ _; rfl
  | cons e es ih =>
      intro s hs hall
      have hstep := pm_step_no_link c s e hs (hall e (by simp))
      dsimp [pm_run]
      rw [hstep.1, ih _ hstep.2 (fun x hx => hall x (by simp [hx]))]
      rfl

theorem listener_state_of_not_shift (st : ShiftState) (ev : KeyEvent)
    (h1 : ev.keycode ≠ LEFT_SHIFT) (h2 : ev.keycode ≠ RIGHT_SHIFT) :
    (us_printed_on_jis_keycode_listener st ev).1 = st := by
  unfold us_printed_on_jis_keycode_listener
  rw [if_neg h1, if_neg h2]
  split_ifs with hc
  · rfl
  · cases remap_table.find? (fun e => e.source == ev.keycode) <;> rfl

/-! ### Claim theorems -/

/-- C1: without USB power the evaluation step's target mode is Sleep3
for idle duration `d ≥ 30000`, else Sleep2 for `d ≥ 15000`, else
Sleep1 for `d ≥ 5000`, else Active, each boundary inclusive and
independent of the current mode (the non-USB path of
`power_mode_transition` applies `target_mode` to the idle time,
whatever `current_mode` holds, as the last conjunct shows); with USB
power present the evaluation drives the mode to Active regardless of
idle time. -/
theorem C1_target_mode_policy (d : Int) :
    ((30000 : Int) ≤ d → target_mode d = PowerMode.sleep3) ∧
    ((15000 : Int) ≤ d → d < 30000 → target_mode d = PowerMode.sleep2) ∧
    ((5000 : Int) ≤ d → d < 15000 → target_mode d = PowerMode.sleep1) ∧
    (d < 5000 → target_mode d = PowerMode.active) ∧
    (∀ (c : Config) (s : PowerState) (now : Int), s.split_conn = true →
      target_mode (now - s.last_activity_time) ≠ s.current_mode →
      (power_mode_transition c false now true s).1.current_mode =
        target_mode (now - s.last_activity_time)) ∧
    (∀ (c : Config) (s : PowerState) (now : Int), s.split_conn = true →
      (power_mode_transition c true now true s).1.current_mode = PowerMode.active) := by
  refine ⟨?_, ?_, ?_, ?_, ?_, ?_⟩
  · intro h
    simp only [target_mode, SLEEP1_TIMEOUT_MS, SLEEP2_TIMEOUT_MS, SLEEP3_TIMEOUT_MS]
    split_ifs <;> first | rfl | omega
  · intro h1 h2
    simp only [target_mode, SLEEP1_TIMEOUT_MS, SLEEP2_TIMEOUT_MS, SLEEP3_TIMEOUT_MS]
    split_ifs <;> first | rfl | omega
  · intro h1 h2
    simp only [target_mode, SLEEP1_TIMEOUT_MS, SLEEP2_TIMEOUT_MS, SLEEP3_TIMEOUT_MS]
    split_ifs <;> first | rfl | omega
  · intro h
    simp only [target_mode, SLEEP1_TIMEOUT_MS, SLEEP2_TIMEOUT_MS, SLEEP3_TIMEOUT_MS]
    split_ifs <;> first | rfl | omega
  · intro c s now hconn hdiff
    simp [power_mode_transition, hconn, hdiff, reschedule_current_mode]
  · intro c s now hconn
    by_cases hm : s.current_mode = PowerMode.active <;>
      simp [power_mode_transition, hconn, hm]

/-- Witness for C1 at the three inclusive boundaries, below the first
threshold, at a non-USB mode change, and under USB power. -/
theorem C1_target_mode_policy_witness :
    target_mode 30000 = PowerMode.sleep3 ∧
    target_mode 15000 = PowerMode.sleep2 ∧
    target_mode 5000 = PowerMode.sleep1 ∧
    target_mode 4999 = PowerMode.active ∧
    (power_mode_transition ⟨6, 1, 400⟩ false 6000 true
      ⟨PowerMode.active, 0, true, none⟩).1.current_mode = target_mode (6000 - 0) ∧
    (power_mode_transition ⟨6, 1, 400⟩ true 99999 true
      ⟨PowerMode.sleep3, 0, true, none⟩).1.current_mode = PowerMode.active :=
  ⟨(C1_target_mode_policy 30000).1 (by decide),
   (C1_target_mode_policy 15000).2.1 (by decide) (by decide),
   (C1_target_mode_policy 5000).2.2.1 (by decide) (by decide),
   (C1_target_mode_policy 4999).2.2.2.1 (by decide),
   (C1_target_mode_policy 0).2.2.2.2.1 ⟨6, 1, 400⟩
     ⟨PowerMode.active, 0, true, none⟩ 6000 rfl (by decide),
   (C1_target_mode_policy 0).2.2.2.2.2 ⟨6, 1, 400⟩
     ⟨PowerMode.sleep3, 0, true, none⟩ 99999 rfl⟩

/-- C2 counterexample: a qualifying connection accepted while a
previous handle is still tracked and the mode is Sleep2 leaves the
stored current mode at Sleep2, not Active — `board.c`'s connected
callback never assigns `current_mode`. -/
theorem C2_connected_cb_counterexample :
    (power_mgmt_bt_conn_connected_cb false true 100
      ⟨PowerMode.sleep2, 0, true, none⟩).current_mode ≠ PowerMode.active := by
  decide

/-- C2 (amended): after a qualifying connection is accepted, the
handle is stored and the activity timestamp equals the current time
(idle duration 0); an evaluation after T1 (5000 ms) is scheduled only
when none was already pending — `board.c:222` calls `k_work_schedule`
without cancelling first, so a still-pending evaluation keeps its old
deadline — and the current mode is left unchanged by the callback
rather than set to Active. -/
theorem C2_connected_cb_state (s : PowerState) (now : Int) :
    (power_mgmt_bt_conn_connected_cb false true now s).split_conn = true ∧
    now - (power_mgmt_bt_conn_connected_cb false true now s).last_activity_time = 0 ∧
    (s.pending = none →
      (power_mgmt_bt_conn_connected_cb false true now s).pending =
        some SLEEP1_TIMEOUT_MS) ∧
    (∀ d : Int, s.pending = some d →
      (power_mgmt_bt_conn_connected_cb false true now s).pending = some d) ∧
    (power_mgmt_bt_conn_connected_cb false true now s).current_mode = s.current_mode := by
  unfold power_mgmt_bt_conn_connected_cb k_work_schedule
  cases hp : s.pending <;> simp [hp]

/-- Witness for C2 (amended): a fresh connect with nothing pending
schedules after T1, and a connect with an evaluation pending at 100 ms
keeps that deadline. -/
theorem C2_connected_cb_state_witness :
    (power_mgmt_bt_conn_connected_cb false true 100
      ⟨PowerMode.active, 0, true, none⟩).pending = some SLEEP1_TIMEOUT_MS ∧
    (power_mgmt_bt_conn_connected_cb false true 20000
      ⟨PowerMode.sleep2, 0, true, some 100⟩).pending = some 100 :=
  ⟨(C2_connected_cb_state ⟨PowerMode.active, 0, true, none⟩ 100).2.2.1 rfl,
   (C2_connected_cb_state ⟨PowerMode.sleep2, 0, true, some 100⟩ 20000).2.2.2.1
     100 rfl⟩

/-- C6 counterexample: with base latency 1, the Sleep1 profile's
latency is `(1+1)/2 = 1`, not the floor `1/2 = 0` the claim states. -/
theorem C6_profile_counterexample :
    (profileFor ⟨6, 1, 400⟩ PowerMode.sleep1).latency ≠
      (Config.prefLatency ⟨6, 1, 400⟩) / 2 := by
  decide

/-- C6 (amended): intervals are the base interval times 1, 2, 4, 8 for
Active, Sleep1, Sleep2, Sleep3 (with `interval_min = interval_max`);
the sleep latencies are the ceiling — not the floor — of the base
latency divided by 2, 4, 8, characterized here as the unique `k` with
`base ≤ divisor * k < base + divisor`; the supervision timeout is
identical in all four modes. -/
theorem C6_profile_derivation (c : Config) :
    ((profileFor c .active).interval_min = c.prefInt ∧
     (profileFor c .active).interval_max = c.prefInt) ∧
    ((profileFor c .sleep1).interval_min = c.prefInt * 2 ∧
     (profileFor c .sleep1).interval_max = c.prefInt * 2) ∧
    ((profileFor c .sleep2).interval_min = c.prefInt * 4 ∧
     (profileFor c .sleep2).interval_max = c.prefInt * 4) ∧
    ((profileFor c .sleep3).interval_min = c.prefInt * 8 ∧
     (profileFor c .sleep3).interval_max = c.prefInt * 8) ∧
    (profileFor c .active).latency = c.prefLatency ∧
    (c.prefLatency ≤ 2 * (profileFor c .sleep1).latency ∧
      2 * (profileFor c .sleep1).latency < c.prefLatency + 2) ∧
    (c.prefLatency ≤ 4 * (profileFor c .sleep2).latency ∧
      4 * (profileFor c .sleep2).latency < c.prefLatency + 4) ∧
    (c.prefLatency ≤ 8 * (profileFor c .sleep3).latency ∧
      8 * (profileFor c .sleep3).latency < c.prefLatency + 8) ∧
    (∀ m : PowerMode, (profileFor c m).timeout = c.prefTimeout) := by
  refine ⟨⟨rfl, rfl⟩, ⟨rfl, rfl⟩, ⟨rfl, rfl⟩, ⟨rfl, rfl⟩, rfl, ⟨?_, ?_⟩, ⟨?_, ?_⟩,
    ⟨?_, ?_⟩, fun m => by cases m <;> rfl⟩
  all_goals simp only [profileFor, SLEEP1_CONN_LATENCY, SLEEP2_CONN_LATENCY,
    SLEEP3_CONN_LATENCY]
  all_goals omega

/-- C7: when the target mode differs from the current mode and the
parameter-update request fails, the evaluation returns the state
unchanged (mode and pending schedule included) alongside the single
failed request; the handler's return carries no error component, so
the failure is never propagated to the caller. -/
theorem C7_failed_update_no_change (c : Config) (now : Int) (s : PowerState)
    (hconn : s.split_conn = true)
    (hdiff : target_mode (now - s.last_activity_time) ≠ s.current_mode) :
    power_mode_transition c false now false s =
      (s, [profileFor c (target_mode (now - s.last_activity_time))]) := by
  simp [power_mode_transition, hconn, hdiff]

/-- Witness for C7: idle 6000 ms in Active mode targets Sleep1, the
update fails, and the state is returned untouched with no schedule. -/
theorem C7_failed_update_no_change_witness :
    power_mode_transition ⟨6, 1, 400⟩ false 6000 false
        ⟨PowerMode.active, 0, true, none⟩ =
      (⟨PowerMode.active, 0, true, none⟩,
        [profileFor ⟨6, 1, 400⟩ (target_mode (6000 - 0))]) :=
  C7_failed_update_no_change ⟨6, 1, 400⟩ 6000
    ⟨PowerMode.active, 0, true, none⟩ rfl (by decide)

/-- C8: disconnecting the tracked handle (from any mode, Sleep2
included) cancels the pending evaluation, releases the handle, resets
the mode to Active, and afterwards no parameter-update request is
issued by any sequence of further stimuli that contains no qualifying
link acquisition. -/
theorem C8_disconnect_quiescent (c : Config) (s : PowerState)
    (hconn : s.split_conn = true) :
    (power_mgmt_bt_conn_disconnected_cb true s).pending = none ∧
    (power_mgmt_bt_conn_disconnected_cb true s).split_conn = false ∧
    (power_mgmt_bt_conn_disconnected_cb true s).current_mode = PowerMode.active ∧
    ∀ evs : List PMEvent, (∀ e ∈ evs, is_qual_connect e = false) →
      (pm_run c (power_mgmt_bt_conn_disconnected_cb true s) evs).2 = [] := by
  have hcb : power_mgmt_bt_conn_disconnected_cb true s =
      { s with pending := none, split_conn := false,
               current_mode := PowerMode.active } := by
    simp [power_mgmt_bt_conn_disconnected_cb, hconn]
  rw [hcb]
  exact ⟨rfl, rfl, rfl, fun evs hall => pm_run_no_link c evs _ rfl hall⟩

/-- Witness for C8: disconnect during Sleep2, then an activity burst
and a later evaluation issue no parameter-update request. -/
theorem C8_disconnect_quiescent_witness :
    (power_mgmt_bt_conn_disconnected_cb true
      ⟨PowerMode.sleep2, 0, true, some 100⟩).current_mode = PowerMode.active ∧
    (pm_run ⟨6, 1, 400⟩
      (power_mgmt_bt_conn_disconnected_cb true ⟨PowerMode.sleep2, 0, true, some 100⟩)
      [PMEvent.activity false true 50, PMEvent.evalFire false true 6000,
       PMEvent.connect true true 7000]).2 = [] :=
  ⟨(C8_disconnect_quiescent ⟨6, 1, 400⟩ ⟨PowerMode.sleep2, 0, true, some 100⟩ rfl).2.2.1,
   (C8_disconnect_quiescent ⟨6, 1, 400⟩ ⟨PowerMode.sleep2, 0, true, some 100⟩ rfl).2.2.2
     _ (by decide)⟩

/-- C9: the implication "no tracked link implies mode Active" holds in
the initial state, is preserved by every handler, and therefore holds
in every state reachable from the initial state. -/
theorem C9_no_link_mode_active :
    (∀ (c : Config) (s : PowerState) (e : PMEvent),
      pm_inv s → pm_inv (pm_step c s e).1) ∧
    (∀ (c : Config) (evs : List PMEvent), pm_inv (pm_run c pm_init evs).1) :=
  ⟨fun c s e h => pm_step_preserves_inv c s e h,
   fun c evs => pm_run_preserves_inv c evs pm_init (fun _ => rfl)⟩

/-- Witness for C9: preservation applied to one concrete step out of
the initial state. -/
theorem C9_no_link_mode_active_witness :
    pm_inv (pm_step ⟨6, 1, 400⟩ pm_init (PMEvent.evalFire false true 6000)).1 :=
  C9_no_link_mode_active.1 ⟨6, 1, 400⟩ pm_init
    (PMEvent.evalFire false true 6000) (fun _ => rfl)

/-- C3: for every remap table entry and every prior shift state (all
four combinations of shift held or not versus target requiring shift
or not are instances), handling the press and then the matching
release leaves the physical shift tracker exactly as it was. -/
theorem C3_shift_round_trip :
    ∀ e ∈ remap_table, ∀ l r : Bool,
      (us_printed_on_jis_keycode_listener
        (us_printed_on_jis_keycode_listener ⟨l, r⟩ ⟨e.source, true⟩).1
        ⟨e.source, false⟩).1 = ⟨l, r⟩ := by
  decide

/-- Witness for C3 on the first table entry with left shift held. -/
theorem C3_shift_round_trip_witness :
    (us_printed_on_jis_keycode_listener
      (us_printed_on_jis_keycode_listener ⟨true, false⟩ ⟨N2, true⟩).1
      ⟨N2, false⟩).1 = ⟨true, false⟩ :=
  C3_shift_round_trip ⟨N2, LBRC, false, N2, false⟩ (by decide) true false

/-- C4: the shift tracker is mutated only by observed physical
Left/Right Shift key events — any input event whose handling changes
the tracker carries one of those two keycodes — and handling any remap
table entry (whose substitution is what emits synthetic Shift events
into the external sink) leaves both tracker booleans unchanged. -/
theorem C4_tracker_only_physical :
    (∀ (st : ShiftState) (ev : KeyEvent),
      (us_printed_on_jis_keycode_listener st ev).1 ≠ st →
        ev.keycode = LEFT_SHIFT ∨ ev.keycode = RIGHT_SHIFT) ∧
    (∀ e ∈ remap_table, ∀ l r pressed : Bool,
      (us_printed_on_jis_keycode_listener ⟨l, r⟩ ⟨e.source, pressed⟩).1 = ⟨l, r⟩) := by
  constructor
  · intro st ev h
    by_contra hk
    push_neg at hk
    exact h (listener_state_of_not_shift st ev hk.1 hk.2)
  · decide

/-- Witness for C4: a physical Left Shift press changes the tracker
(so the hypothesis of the first conjunct is satisfiable), and a
substitution press of the first table entry leaves it unchanged. -/
theorem C4_tracker_only_physical_witness :
    ((⟨LEFT_SHIFT, true⟩ : KeyEvent).keycode = LEFT_SHIFT ∨
      (⟨LEFT_SHIFT, true⟩ : KeyEvent).keycode = RIGHT_SHIFT) ∧
    (us_printed_on_jis_keycode_listener ⟨false, true⟩ ⟨N2, true⟩).1 = ⟨false, true⟩ :=
  ⟨C4_tracker_only_physical.1 ⟨false, false⟩ ⟨LEFT_SHIFT, true⟩ (by decide),
   C4_tracker_only_physical.2 ⟨N2, LBRC, false, N2, false⟩ (by decide) false true true⟩

/-- C5 counterexample: releasing the `N2` entry's key with left shift
held emits, first, a Left Shift release — not the release of either
target keycode — so the claimed "target release first" order fails. -/
theorem C5_release_order_counterexample :
    (us_printed_on_jis_keycode_listener ⟨true, false⟩ ⟨N2, false⟩).2.2.head? =
      some ⟨LEFT_SHIFT, false⟩ ∧
    LEFT_SHIFT ≠ LBRC ∧ LEFT_SHIFT ≠ N2 := by
  decide

/-- C5 (amended): for every remap table entry the release handling
emits exactly the sequence of `release_seq_claim`: temporary releases
of the held shift side(s) (when shift is active and the shift-variant
target does not need it), then the shift-variant target release, then
re-presses of exactly the held side(s), then — when shift is inactive
and the plain-variant target needs it — a Left Shift press, the
plain-variant target release, and a Left Shift release. -/
theorem C5_release_order :
    ∀ e ∈ remap_table, ∀ l r : Bool,
      (us_printed_on_jis_keycode_listener ⟨l, r⟩ ⟨e.source, false⟩).2.2 =
        release_seq_claim e l r := by
  decide

/-- Witness for C5 (amended) on the first table entry with left shift
held. -/
theorem C5_release_order_witness :
    (us_printed_on_jis_keycode_listener ⟨true, false⟩ ⟨N2, false⟩).2.2 =
      release_seq_claim ⟨N2, LBRC, false, N2, false⟩ true false :=
  C5_release_order ⟨N2, LBRC, false, N2, false⟩ (by decide) true false

/-- C10: for every remap table entry and every shift state, the
release handling emits a release of both the shift-variant target and
the plain-variant target, so whichever substitute was pressed earlier
is released even if the shift state changed in between. -/
theorem C10_release_both_targets :
    ∀ e ∈ remap_table, ∀ l r : Bool,
      (⟨e.regist_ifshift, false⟩ : KeyEvent) ∈
        (us_printed_on_jis_keycode_listener ⟨l, r⟩ ⟨e.source, false⟩).2.2 ∧
      (⟨e.regist, false⟩ : KeyEvent) ∈
        (us_printed_on_jis_keycode_listener ⟨l, r⟩ ⟨e.source, false⟩).2.2 := by
  decide

/-- Witness for C10 on the first table entry with right shift held. -/
theorem C10_release_both_targets_witness :
    (⟨LBRC, false⟩ : KeyEvent) ∈
      (us_printed_on_jis_keycode_listener ⟨false, true⟩ ⟨N2, false⟩).2.2 ∧
    (⟨N2, false⟩ : KeyEvent) ∈
      (us_printed_on_jis_keycode_listener ⟨false, true⟩ ⟨N2, false⟩).2.2 :=
  C10_release_both_targets ⟨N2, LBRC, false, N2, false⟩ (by decide) false true

end Board
